import Mathlib

/-!
NGLScene: the simulation controller of the Bullet playground.

Shallow embedding of `include/NGLScene.h`.

* The private data members of `class NGLScene` become the fields of the
  structure `NGLScene`, in declaration order and under their C++ names.
* The inline member functions of the header (`toggleAnimation`,
  `toggleRandomPlace`, `toggleBBox`, `toggleWireframe`, `getPhysicsWorld`)
  become functions on that structure.
* The member functions the header only declares (`NGLScene()`,
  `initializeGL`, `paintGL`, `resizeGL`, `stepAnimation`, `addCube`,
  `addSphere`, `resetSim`, `keyPressEvent`, the mouse and wheel handlers,
  `timerEvent`) and the forward-declared `class PhysicsWorld` have no body in
  the header; they are modelled from the specification and marked so.

The library types `ngl::Vec3`, `ngl::Mat4`, `ngl::Camera` and `ngl::Text`
are declared outside the repository and are type parameters here.
-/

namespace Specialist

/-! ## C++ scalar model -/

/-- A C++ `float` object, kept as its 32-bit object representation. -/
structure CFloat where
  bits : Nat
  deriving DecidableEq, Repr

/-- A raw C++ pointer, kept as the address it holds (`0` is `nullptr`). -/
structure Ptr where
  addr : Nat
  deriving DecidableEq, Repr

/-- Integral promotion of a C++ `bool` operand: `true` is 1, `false` is 0. -/
def boolToInt (b : Bool) : Int :=
  if b then 1 else 0

/-- Conversion of an `int` back to `bool`: zero is `false`, all else `true`. -/
def intToBool (i : Int) : Bool :=
  i != 0

/-- The compound assignment `b ^= rhs` on a `bool` lvalue: both operands are
promoted to `int`, combined with bitwise exclusive or, and the result is
converted back to `bool`. -/
def xorAssign (b rhs : Bool) : Bool :=
  intToBool (Int.xor (boolToInt b) (boolToInt rhs))

/-! ## The scene object -/

/-- The data members of `class NGLScene` (NGLScene.h, lines 99-186). -/
structure NGLScene (Vec3 Mat4 Camera Text : Type) where
  m_x : CFloat
  m_y : CFloat
  m_rot : CFloat
  m_firePos : Vec3
  m_radius : CFloat
  m_width : Int
  m_height : Int
  m_spinXFace : Int
  m_spinYFace : Int
  m_rotate : Bool
  m_translate : Bool
  m_origX : Int
  m_origY : Int
  m_origXPos : Int
  m_origYPos : Int
  m_cam : Camera
  m_bodyTransform : Mat4
  m_globalTransformMatrix : Mat4
  m_modelPos : Vec3
  m_physics : Ptr
  m_animate : Bool
  m_randomPlace : Bool
  m_bboxDraw : Bool
  m_wireframe : Bool
  m_text : Option Text
  m_numBlocks : Int

section Source

variable {Vec3 Mat4 Camera Text : Type}

/-- Source line 59: `inline void toggleAnimation(){m_animate ^=true;}`. -/
def toggleAnimation (s : NGLScene Vec3 Mat4 Camera Text) : NGLScene Vec3 Mat4 Camera Text :=
  { s with m_animate := xorAssign s.m_animate true }

/-- Source line 83: `inline void toggleRandomPlace(){m_randomPlace^=true;}`. -/
def toggleRandomPlace (s : NGLScene Vec3 Mat4 Camera Text) : NGLScene Vec3 Mat4 Camera Text :=
  { s with m_randomPlace := xorAssign s.m_randomPlace true }

/-- Source line 87: `inline void toggleBBox(){m_bboxDraw^=true;}`. -/
def toggleBBox (s : NGLScene Vec3 Mat4 Camera Text) : NGLScene Vec3 Mat4 Camera Text :=
  { s with m_bboxDraw := xorAssign s.m_bboxDraw true }

/-- Source line 91: `inline void toggleWireframe(){m_wireframe^=true;}`. -/
def toggleWireframe (s : NGLScene Vec3 Mat4 Camera Text) : NGLScene Vec3 Mat4 Camera Text :=
  { s with m_wireframe := xorAssign s.m_wireframe true }

/-- Source line 95: `inline PhysicsWorld *getPhysicsWorld(){return m_physics;}`.
The result is the returned pointer paired with the scene as the call leaves it. -/
def getPhysicsWorld (s : NGLScene Vec3 Mat4 Camera Text) :
    Ptr × NGLScene Vec3 Mat4 Camera Text :=
  (s.m_physics, s)

end Source

/-! ## Physics world, body lifecycle and input handling

`class PhysicsWorld` is only forward-declared in the header, and the bodies of
the constructor, `initializeGL`, `paintGL`, `resizeGL`, `stepAnimation`,
`addCube`, `addSphere`, `resetSim`, `keyPressEvent`, the mouse and wheel
handlers and `timerEvent` are not part of it. The definitions of this section
follow the specification (sections 3 to 6). -/

/-- Modelled from the spec: the shape kind of a Body (section 3, "cube |
sphere"); the header declares no body type. -/
inductive ShapeKind where
  | cube
  | sphere
  deriving DecidableEq, Repr

/-- Modelled from the spec: a Body as the Physics World holds it (sections 3
and 4.2): the identifier the world assigned, the shape kind, the world
transform, and the linear velocity once one has been set. The transform type
`X` and the velocity type `V` are the engine's own and are left abstract. -/
structure Body (X V : Type) where
  id : Nat
  shape : ShapeKind
  transform : X
  velocity : Option V

/-- Modelled from the spec: one entry of the render-record collection owned by
the Simulation Controller (section 3), naming the body it draws. -/
structure RenderRecord where
  body : Nat
  shape : ShapeKind
  deriving DecidableEq, Repr

/-- Modelled from the spec: the state of `class PhysicsWorld`, whose definition
is missing from the header (section 4.2): the live dynamic bodies, the next
identifier to hand out, the number of logical advances made so far, and the
optional ceiling on the live-body count (capacity policy). -/
structure PhysicsWorld (X V : Type) where
  bodies : List (Body X V)
  nextId : Nat
  ticks : Nat
  ceiling : Option Nat

/-- Modelled from the spec: the parts the specification treats as black boxes
(sections 1, 4.1, 4.2, 4.3 and 4.4): the integrator's effect of one fixed tick
on a body in a given world, the canonical spawn transform, the injectable
random source (seed to transform and next seed), the composition of a body
transform with the camera into a model-view-projection matrix, the camera
operations orbit, pan, zoom and the projection update on resize, and the
launch geometry of a projectile (shape, position at the eye offset along the
view direction, velocity along the view direction at the launch speed). -/
structure Engine (Mat4 Camera X V : Type) where
  integrate : List (Body X V) → Body X V → X × Option V
  canonical : X
  sample : Nat → X × Nat
  compose : Camera → X → Mat4
  orbit : Camera → Int → Int → Camera
  pan : Camera → Int → Int → Camera
  zoom : Camera → Int → Camera
  setAspect : Camera → Int → Int → Camera
  projectile : ShapeKind
  muzzle : Camera → X
  launchVelocity : Camera → V

/-- Modelled from the spec: a call of the drawing contract (section 6) issued
by the render callback. -/
inductive DrawCall (Mat4 : Type) where
  | mesh (shape : ShapeKind) (mvp : Mat4) (wireframe : Bool)
  | bbox (shape : ShapeKind) (mvp : Mat4)
  | hud

/-- Modelled from the spec: the Simulation Controller together with what it
owns (section 3, ownership): the scene object of the header, the Physics World
behind `m_physics`, the render-record collection, the state of the random
source and the counter of rejected add requests. -/
structure Sim (Vec3 Mat4 Camera Text X V : Type) where
  scene : NGLScene Vec3 Mat4 Camera Text
  world : PhysicsWorld X V
  records : List RenderRecord
  seed : Nat
  rejected : Nat

/-- Modelled from the spec: the discrete actions of the user-facing control
surface (section 6) that a key or a button can be bound to. -/
inductive Action where
  | toggleAnimation
  | stepAnimation
  | addCube
  | addSphere
  | fire
  | resetSim
  | toggleRandomPlace
  | toggleBBox
  | toggleWireframe
  deriving DecidableEq, Repr

/-- Modelled from the spec: what a pointer button is bound to (sections 4.1
and 6): the orbit drag, the pan drag, or a discrete action. -/
inductive ButtonRole where
  | orbit
  | pan
  | action (a : Action)
  deriving DecidableEq, Repr

/-- Modelled from the spec: the key and button bindings, which section 6
leaves open ("illustrative, not fixed"); an unbound key or button is `none`. -/
structure Bindings where
  key : Int → Option Action
  button : Int → Option ButtonRole

section SpecModel

variable {Vec3 Mat4 Camera Text X V : Type}

/-- Modelled from the spec: `PhysicsWorld::addBody` (section 4.2). A world at
its ceiling rejects the request (`none`); otherwise the body is inserted under
a fresh identifier, which is returned with the new world. -/
def addBody (w : PhysicsWorld X V) (shape : ShapeKind) (x : X) :
    Option (Nat × PhysicsWorld X V) :=
  match w.ceiling with
  | some c =>
    if c ≤ w.bodies.length then none
    else some (w.nextId,
      { w with bodies := w.bodies ++ [⟨w.nextId, shape, x, none⟩], nextId := w.nextId + 1 })
  | none =>
    some (w.nextId,
      { w with bodies := w.bodies ++ [⟨w.nextId, shape, x, none⟩], nextId := w.nextId + 1 })

/-- Modelled from the spec: `PhysicsWorld::removeAllBodies` (section 4.2),
which clears every dynamic body. -/
def removeAllBodies (w : PhysicsWorld X V) : PhysicsWorld X V :=
  { w with bodies := [] }

/-- Modelled from the spec: `PhysicsWorld::applyInitialVelocity` (section
4.2), which sets the linear velocity of the body with the given identifier. -/
def applyInitialVelocity (w : PhysicsWorld X V) (i : Nat) (v : V) : PhysicsWorld X V :=
  { w with bodies := w.bodies.map (fun b => if b.id = i then { b with velocity := some v } else b) }

/-- Modelled from the spec: `PhysicsWorld::step` (section 4.2): exactly one
logical advance per call; every body's transform and velocity are rewritten by
the integrator. -/
def step (E : Engine Mat4 Camera X V) (w : PhysicsWorld X V) : PhysicsWorld X V :=
  { w with
    bodies := w.bodies.map (fun b =>
      { b with transform := (E.integrate w.bodies b).1, velocity := (E.integrate w.bodies b).2 })
    ticks := w.ticks + 1 }

/-- Modelled from the spec: `PhysicsWorld::getTransform` (section 4.2); an
identifier that is not live is an error, here `none`. -/
def getTransform (w : PhysicsWorld X V) (i : Nat) : Option X :=
  (w.bodies.find? (fun b => b.id == i)).map (fun b => b.transform)

/-- Modelled from the spec: the Body Spawner (section 4.4). With `randomize`
false the canonical transform is used and the random source is not consumed;
with `randomize` true the transform is drawn from the random source. -/
def spawn (E : Engine Mat4 Camera X V) (shape : ShapeKind) (randomize : Bool) (seed : Nat) :
    (ShapeKind × X) × Nat :=
  if randomize then ((shape, (E.sample seed).1), (E.sample seed).2)
  else ((shape, E.canonical), seed)

/-- Modelled from the spec: the common body of `addCube` and `addSphere`
(section 4.1): spawn with the current placement policy, insert into the
Physics World and the render-record collection; a rejected request is dropped
and counted. -/
def addShape (E : Engine Mat4 Camera X V) (shape : ShapeKind)
    (σ : Sim Vec3 Mat4 Camera Text X V) : Sim Vec3 Mat4 Camera Text X V :=
  let r := spawn E shape σ.scene.m_randomPlace σ.seed
  match addBody σ.world r.1.1 r.1.2 with
  | some (i, w) => { σ with world := w, records := σ.records ++ [⟨i, shape⟩], seed := r.2 }
  | none => { σ with seed := r.2, rejected := σ.rejected + 1 }

/-- Modelled from the spec: `NGLScene::addCube`, declared at source line 67
without a body. -/
def addCube (E : Engine Mat4 Camera X V) (σ : Sim Vec3 Mat4 Camera Text X V) :
    Sim Vec3 Mat4 Camera Text X V :=
  addShape E ShapeKind.cube σ

/-- Modelled from the spec: `NGLScene::addSphere`, declared at source line 71
without a body. -/
def addSphere (E : Engine Mat4 Camera X V) (σ : Sim Vec3 Mat4 Camera Text X V) :
    Sim Vec3 Mat4 Camera Text X V :=
  addShape E ShapeKind.sphere σ

/-- Modelled from the spec: the fire action (`fire` of section 4.1), which the
header does not declare: a projectile Body is created at the eye position
offset along the view direction, entered in the render-record collection, and
given its initial velocity; a request the world rejects is dropped and
counted. -/
def fire (E : Engine Mat4 Camera X V) (σ : Sim Vec3 Mat4 Camera Text X V) :
    Sim Vec3 Mat4 Camera Text X V :=
  match addBody σ.world E.projectile (E.muzzle σ.scene.m_cam) with
  | some (i, w) =>
    { σ with
      world := applyInitialVelocity w i (E.launchVelocity σ.scene.m_cam)
      records := σ.records ++ [⟨i, E.projectile⟩] }
  | none => { σ with rejected := σ.rejected + 1 }

/-- Modelled from the spec: `NGLScene::resetSim`, declared at source line 79
without a body (`reset()` of section 4.1): every Body is removed from the
Physics World and from the render-record collection; the camera is kept. -/
def resetSim (σ : Sim Vec3 Mat4 Camera Text X V) : Sim Vec3 Mat4 Camera Text X V :=
  { σ with world := removeAllBodies σ.world, records := [] }

/-- Modelled from the spec: `NGLScene::stepAnimation`, declared at source line
63 without a body (`stepOnce()` of section 4.1): one fixed tick regardless of
the animate flag. -/
def stepAnimation (E : Engine Mat4 Camera X V) (σ : Sim Vec3 Mat4 Camera Text X V) :
    Sim Vec3 Mat4 Camera Text X V :=
  { σ with world := step E σ.world }

/-- Modelled from the spec: the draw calls for one render record, read from
the world after the frame's step: solid or wireframe mesh per the wireframe
flag, and a bounding box when the bounding-box flag is set. -/
def drawRecord (E : Engine Mat4 Camera X V) (s : NGLScene Vec3 Mat4 Camera Text)
    (w : PhysicsWorld X V) (r : RenderRecord) : List (DrawCall Mat4) :=
  match getTransform w r.body with
  | none => []
  | some x =>
    DrawCall.mesh r.shape (E.compose s.m_cam x) s.m_wireframe ::
      (if s.m_bboxDraw then [DrawCall.bbox r.shape (E.compose s.m_cam x)] else [])

/-- Modelled from the spec: `NGLScene::paintGL`, declared at source line 48
without a body (`renderFrame()` of section 4.1): if animating, advance the
Physics World by one tick; then read every live body's transform and issue its
draw calls; finally draw the HUD. The result is the state after the frame and
the draw calls issued, in order. -/
def paintGL (E : Engine Mat4 Camera X V) (σ : Sim Vec3 Mat4 Camera Text X V) :
    Sim Vec3 Mat4 Camera Text X V × List (DrawCall Mat4) :=
  let w := if σ.scene.m_animate then step E σ.world else σ.world
  ({ σ with world := w },
    (σ.records.map (drawRecord E σ.scene w)).flatten ++ [DrawCall.hud])

/-- Modelled from the spec: the constructor `NGLScene::NGLScene` with
`NGLScene::initializeGL`, declared at source lines 35 and 44 without bodies
(`initialize()` of section 4.1): the camera is the default one, a Physics
World is constructed, animating is true, randomize is false and every
debug-draw flag is false. The members the specification does not mention keep
the values of `base`. -/
def initializeGL (base : NGLScene Vec3 Mat4 Camera Text) (defaultCam : Camera)
    (physics : Ptr) (ceiling : Option Nat) (seed : Nat) : Sim Vec3 Mat4 Camera Text X V :=
  { scene :=
      { base with
        m_cam := defaultCam
        m_physics := physics
        m_animate := true
        m_randomPlace := false
        m_bboxDraw := false
        m_wireframe := false }
    world := { bodies := [], nextId := 0, ticks := 0, ceiling := ceiling }
    records := []
    seed := seed
    rejected := 0 }

/-- Modelled from the spec: both `NGLScene::resizeGL` overloads, declared at
source lines 53 and 55 without bodies (`onResize(width, height)` of section
4.1): the camera's projection is updated for the new size. -/
def resizeGL (E : Engine Mat4 Camera X V) (w h : Int) (σ : Sim Vec3 Mat4 Camera Text X V) :
    Sim Vec3 Mat4 Camera Text X V :=
  { σ with scene := { σ.scene with m_cam := E.setAspect σ.scene.m_cam w h } }

/-- Modelled from the spec: the dispatch of a discrete action of the control
surface (sections 4.1 and 6) to the operation it names. -/
def runAction (E : Engine Mat4 Camera X V) (a : Action) (σ : Sim Vec3 Mat4 Camera Text X V) :
    Sim Vec3 Mat4 Camera Text X V :=
  match a with
  | Action.toggleAnimation => { σ with scene := toggleAnimation σ.scene }
  | Action.stepAnimation => stepAnimation E σ
  | Action.addCube => addCube E σ
  | Action.addSphere => addSphere E σ
  | Action.fire => fire E σ
  | Action.resetSim => resetSim σ
  | Action.toggleRandomPlace => { σ with scene := toggleRandomPlace σ.scene }
  | Action.toggleBBox => { σ with scene := toggleBBox σ.scene }
  | Action.toggleWireframe => { σ with scene := toggleWireframe σ.scene }

/-- Modelled from the spec: `NGLScene::keyPressEvent`, declared at source line
196 without a body (key handler of section 4.1): a bound key runs its discrete
action, any other key is ignored (section 7). -/
def keyPressEvent (E : Engine Mat4 Camera X V) (B : Bindings) (key : Int)
    (σ : Sim Vec3 Mat4 Camera Text X V) : Sim Vec3 Mat4 Camera Text X V :=
  match B.key key with
  | some a => runAction E a σ
  | none => σ

/-- Modelled from the spec: `NGLScene::mousePressEvent`, declared at source
line 207 without a body (pointer handler of section 4.1). The orbit button
starts a rotate drag and the pan button a translate drag, each recording the
pointer position in the members the header documents for it (lines 125 to
145); a button bound to a discrete action runs it; any other is ignored. -/
def mousePressEvent (E : Engine Mat4 Camera X V) (B : Bindings) (button x y : Int)
    (σ : Sim Vec3 Mat4 Camera Text X V) : Sim Vec3 Mat4 Camera Text X V :=
  match B.button button with
  | some ButtonRole.orbit =>
    { σ with scene := { σ.scene with m_origX := x, m_origY := y, m_rotate := true } }
  | some ButtonRole.pan =>
    { σ with scene := { σ.scene with m_origXPos := x, m_origYPos := y, m_translate := true } }
  | some (ButtonRole.action a) => runAction E a σ
  | none => σ

/-- Modelled from the spec: `NGLScene::mouseReleaseEvent`, declared at source
line 213 without a body: releasing a drag button ends its drag. -/
def mouseReleaseEvent (B : Bindings) (button : Int)
    (σ : Sim Vec3 Mat4 Camera Text X V) : Sim Vec3 Mat4 Camera Text X V :=
  match B.button button with
  | some ButtonRole.orbit => { σ with scene := { σ.scene with m_rotate := false } }
  | some ButtonRole.pan => { σ with scene := { σ.scene with m_translate := false } }
  | _ => σ

/-- Modelled from the spec: `NGLScene::mouseMoveEvent`, declared at source
line 201 without a body (pointer handler of section 4.1): during a rotate drag
the camera orbits by the pointer delta, during a translate drag it pans by the
pointer delta, and the recorded pointer position follows the pointer. -/
def mouseMoveEvent (E : Engine Mat4 Camera X V) (x y : Int)
    (σ : Sim Vec3 Mat4 Camera Text X V) : Sim Vec3 Mat4 Camera Text X V :=
  if σ.scene.m_rotate then
    { σ with scene :=
      { σ.scene with
        m_cam := E.orbit σ.scene.m_cam (x - σ.scene.m_origX) (y - σ.scene.m_origY)
        m_origX := x
        m_origY := y } }
  else if σ.scene.m_translate then
    { σ with scene :=
      { σ.scene with
        m_cam := E.pan σ.scene.m_cam (x - σ.scene.m_origXPos) (y - σ.scene.m_origYPos)
        m_origXPos := x
        m_origYPos := y } }
  else σ

/-- Modelled from the spec: `NGLScene::wheelEvent`, declared at source line
220 without a body (section 6, "wheel = zoom"): the camera zooms by the wheel
delta. -/
def wheelEvent (E : Engine Mat4 Camera X V) (delta : Int)
    (σ : Sim Vec3 Mat4 Camera Text X V) : Sim Vec3 Mat4 Camera Text X V :=
  { σ with scene := { σ.scene with m_cam := E.zoom σ.scene.m_cam delta } }

/-- Modelled from the spec: `NGLScene::timerEvent`, declared at source line
224 without a body. The specification lists the periodic timer among the host
callbacks (sections 5 and 6) and gives it no operation of the controller:
stepping belongs to the render callback and to the single step (section 4.1).
The timer therefore changes nothing the controller owns. -/
def timerEvent (σ : Sim Vec3 Mat4 Camera Text X V) : Sim Vec3 Mat4 Camera Text X V :=
  σ

/-- The two body-adding requests of the controller. -/
inductive AddCall where
  | addCube
  | addSphere
  deriving DecidableEq, Repr

/-- Run one body-adding request. -/
def runAdd (E : Engine Mat4 Camera X V) (c : AddCall)
    (σ : Sim Vec3 Mat4 Camera Text X V) : Sim Vec3 Mat4 Camera Text X V :=
  match c with
  | AddCall.addCube => addCube E σ
  | AddCall.addSphere => addSphere E σ

/-- The requests a constructed controller can receive: every member function
the header declares for the running scene (lines 48 to 95 and 196 to 224),
with the arguments its event carries, and the fire action of the
specification. -/
inductive SceneCall where
  | paintGL
  | resizeGL (w h : Int)
  | toggleAnimation
  | stepAnimation
  | addCube
  | addSphere
  | fire
  | resetSim
  | toggleRandomPlace
  | toggleBBox
  | toggleWireframe
  | getPhysicsWorld
  | keyPressEvent (key : Int)
  | mouseMoveEvent (x y : Int)
  | mousePressEvent (button x y : Int)
  | mouseReleaseEvent (button : Int)
  | wheelEvent (delta : Int)
  | timerEvent
  deriving DecidableEq, Repr

/-- Run one request of the controller on the simulation state. -/
def runCall (E : Engine Mat4 Camera X V) (B : Bindings) (c : SceneCall)
    (σ : Sim Vec3 Mat4 Camera Text X V) : Sim Vec3 Mat4 Camera Text X V :=
  match c with
  | SceneCall.paintGL => (paintGL E σ).1
  | SceneCall.resizeGL w h => resizeGL E w h σ
  | SceneCall.toggleAnimation => { σ with scene := toggleAnimation σ.scene }
  | SceneCall.stepAnimation => stepAnimation E σ
  | SceneCall.addCube => addCube E σ
  | SceneCall.addSphere => addSphere E σ
  | SceneCall.fire => fire E σ
  | SceneCall.resetSim => resetSim σ
  | SceneCall.toggleRandomPlace => { σ with scene := toggleRandomPlace σ.scene }
  | SceneCall.toggleBBox => { σ with scene := toggleBBox σ.scene }
  | SceneCall.toggleWireframe => { σ with scene := toggleWireframe σ.scene }
  | SceneCall.getPhysicsWorld => { σ with scene := (getPhysicsWorld σ.scene).2 }
  | SceneCall.keyPressEvent key => keyPressEvent E B key σ
  | SceneCall.mouseMoveEvent x y => mouseMoveEvent E x y σ
  | SceneCall.mousePressEvent button x y => mousePressEvent E B button x y σ
  | SceneCall.mouseReleaseEvent button => mouseReleaseEvent B button σ
  | SceneCall.wheelEvent delta => wheelEvent E delta σ
  | SceneCall.timerEvent => timerEvent σ

/-- Whether a request explicitly asks for a single step: the call of
`stepAnimation` itself, or a key or button press bound to the single-step
action. -/
def requestsStep (B : Bindings) (c : SceneCall) : Bool :=
  match c with
  | SceneCall.stepAnimation => true
  | SceneCall.keyPressEvent key => decide (B.key key = some Action.stepAnimation)
  | SceneCall.mousePressEvent button _ _ =>
    decide (B.button button = some (ButtonRole.action Action.stepAnimation))
  | _ => false

/-- The world `w2` shows no advance over the world `w`: the count of logical
advances is the same, and every body of `w2` whose identifier `w` had already
handed out is a body of `w`, with the shape, transform and velocity it had
there. Bodies may have been added or removed. -/
def NotAdvanced (w w2 : PhysicsWorld X V) : Prop :=
  w2.ticks = w.ticks ∧ ∀ b ∈ w2.bodies, b.id < w.nextId → b ∈ w.bodies

end SpecModel

/-! ## Concrete inputs -/

/-- A concrete scene over one-point library types, used to evaluate the
operations on an explicit input. -/
def sampleScene : NGLScene Unit Unit Unit Unit where
  m_x := ⟨0⟩
  m_y := ⟨0⟩
  m_rot := ⟨0⟩
  m_firePos := ()
  m_radius := ⟨0x3F800000⟩
  m_width := 1024
  m_height := 720
  m_spinXFace := 0
  m_spinYFace := 0
  m_rotate := false
  m_translate := false
  m_origX := 0
  m_origY := 0
  m_origXPos := 0
  m_origYPos := 0
  m_cam := ()
  m_bodyTransform := ()
  m_globalTransformMatrix := ()
  m_modelPos := ()
  m_physics := ⟨4096⟩
  m_animate := true
  m_randomPlace := false
  m_bboxDraw := false
  m_wireframe := false
  m_text := none
  m_numBlocks := 0

/-- A concrete engine whose transforms are heights and whose velocities are
vertical speeds: one tick lowers the speed by one unit (gravity) and moves the
body by the new speed; the canonical height is 10, the random source is a
counter, and a projectile is a sphere launched from height 2 at speed 5. -/
def sampleEngine : Engine Unit Unit Int Int where
  integrate := fun _ b => (b.transform + (b.velocity.getD 0 - 1), some (b.velocity.getD 0 - 1))
  canonical := 10
  sample := fun n => (Int.ofNat (n % 7), n + 1)
  compose := fun _ _ => ()
  orbit := fun c _ _ => c
  pan := fun c _ _ => c
  zoom := fun c _ => c
  setAspect := fun c _ _ => c
  projectile := ShapeKind.sphere
  muzzle := fun _ => 2
  launchVelocity := fun _ => 5

/-- Concrete bindings: key 32 toggles the animation, key 49 adds a cube, key
50 adds a sphere, key 70 fires, key 83 single-steps; button 1 orbits and
button 2 pans. -/
def sampleBindings : Bindings where
  key := fun k =>
    if k = 32 then some Action.toggleAnimation
    else if k = 49 then some Action.addCube
    else if k = 50 then some Action.addSphere
    else if k = 70 then some Action.fire
    else if k = 83 then some Action.stepAnimation
    else none
  button := fun b =>
    if b = 1 then some ButtonRole.orbit
    else if b = 2 then some ButtonRole.pan
    else none

/-- A running simulation (animate flag set) holding one cube. -/
def runningSim : Sim Unit Unit Unit Unit Int Int where
  scene := sampleScene
  world :=
    { bodies := [⟨0, ShapeKind.cube, 10, none⟩], nextId := 1, ticks := 5, ceiling := some 4 }
  records := [⟨0, ShapeKind.cube⟩]
  seed := 3
  rejected := 0

/-- The same simulation paused (animate flag cleared). -/
def pausedSim : Sim Unit Unit Unit Unit Int Int :=
  { runningSim with scene := toggleAnimation sampleScene }

/-! ## Helper lemmas -/

theorem xorAssign_true (b : Bool) : xorAssign b true = !b := by
  cases b <;> decide

theorem iterate_of_involution {α : Type} (f : α → α) (hf : ∀ a, f (f a) = a)
    (n : Nat) (a : α) : f^[n] a = if n % 2 = 0 then a else f a := by
  induction n with
  | zero => simp
  | succ k ih =>
    rw [Function.iterate_succ_apply', ih]
    rcases Nat.mod_two_eq_zero_or_one k with h | h
    · have h1 : (k + 1) % 2 = 1 := by omega
      simp [h, h1]
    · have h1 : (k + 1) % 2 = 0 := by omega
      simp [h, h1, hf]

section HelperLemmas

variable {Vec3 Mat4 Camera Text X V : Type}

theorem toggleAnimation_twice (s : NGLScene Vec3 Mat4 Camera Text) :
    toggleAnimation (toggleAnimation s) = s := by
  simp [toggleAnimation, xorAssign_true]

theorem toggleRandomPlace_twice (s : NGLScene Vec3 Mat4 Camera Text) :
    toggleRandomPlace (toggleRandomPlace s) = s := by
  simp [toggleRandomPlace, xorAssign_true]

theorem toggleBBox_twice (s : NGLScene Vec3 Mat4 Camera Text) :
    toggleBBox (toggleBBox s) = s := by
  simp [toggleBBox, xorAssign_true]

theorem toggleWireframe_twice (s : NGLScene Vec3 Mat4 Camera Text) :
    toggleWireframe (toggleWireframe s) = s := by
  simp [toggleWireframe, xorAssign_true]

theorem step_ticks (E : Engine Mat4 Camera X V) (w : PhysicsWorld X V) :
    (step E w).ticks = w.ticks + 1 := rfl

theorem step_length (E : Engine Mat4 Camera X V) (w : PhysicsWorld X V) :
    (step E w).bodies.length = w.bodies.length := by
  simp [step]

theorem notAdvanced_refl (w : PhysicsWorld X V) : NotAdvanced w w :=
  ⟨rfl, fun _ hb _ => hb⟩

theorem addBody_some (w w2 : PhysicsWorld X V) (shape : ShapeKind) (x : X) (i : Nat)
    (h : addBody w shape x = some (i, w2)) :
    i = w.nextId ∧ w2.ticks = w.ticks ∧
      w2.bodies = w.bodies ++ [⟨w.nextId, shape, x, none⟩] := by
  unfold addBody at h
  cases hc : w.ceiling with
  | none =>
    simp only [hc, Option.some.injEq, Prod.mk.injEq] at h
    obtain ⟨h1, h2⟩ := h
    subst h2
    exact ⟨h1.symm, rfl, rfl⟩
  | some c =>
    by_cases hle : c ≤ w.bodies.length
    · simp [hc, hle] at h
    · simp only [hc, hle, if_false, Option.some.injEq, Prod.mk.injEq] at h
      obtain ⟨h1, h2⟩ := h
      subst h2
      exact ⟨h1.symm, rfl, rfl⟩

theorem addBody_notAdvanced (w w2 : PhysicsWorld X V) (shape : ShapeKind) (x : X) (i : Nat)
    (h : addBody w shape x = some (i, w2)) : NotAdvanced w w2 := by
  obtain ⟨_, ht, hb⟩ := addBody_some w w2 shape x i h
  refine ⟨ht, ?_⟩
  intro b hmem hlt
  rw [hb, List.mem_append, List.mem_singleton] at hmem
  rcases hmem with hmem | hmem
  · exact hmem
  · subst hmem
    exact absurd hlt (Nat.lt_irrefl _)

theorem addShape_notAdvanced (E : Engine Mat4 Camera X V) (shape : ShapeKind)
    (σ : Sim Vec3 Mat4 Camera Text X V) : NotAdvanced σ.world (addShape E shape σ).world := by
  unfold addShape
  dsimp only
  split
  · next i w h => exact addBody_notAdvanced σ.world w _ _ i h
  · exact notAdvanced_refl σ.world

theorem fire_notAdvanced (E : Engine Mat4 Camera X V) (σ : Sim Vec3 Mat4 Camera Text X V) :
    NotAdvanced σ.world (fire E σ).world := by
  unfold fire
  cases h : addBody σ.world E.projectile (E.muzzle σ.scene.m_cam) with
  | none => exact notAdvanced_refl σ.world
  | some p =>
    obtain ⟨i, w⟩ := p
    obtain ⟨hi, ht, hb⟩ := addBody_some σ.world w _ _ i h
    refine ⟨ht, ?_⟩
    intro b hmem hlt
    simp only [applyInitialVelocity, List.mem_map] at hmem
    obtain ⟨b0, hb0, heq⟩ := hmem
    by_cases hid : b0.id = i
    · rw [if_pos hid] at heq
      subst heq
      exact absurd hlt (by simp [hid, hi])
    · rw [if_neg hid] at heq
      subst heq
      rw [hb, List.mem_append, List.mem_singleton] at hb0
      rcases hb0 with hb0 | hb0
      · exact hb0
      · subst hb0
        exact absurd hlt (Nat.lt_irrefl _)

theorem resetSim_notAdvanced (σ : Sim Vec3 Mat4 Camera Text X V) :
    NotAdvanced σ.world (resetSim σ).world :=
  ⟨rfl, fun _ hb _ => absurd hb (List.not_mem_nil _)⟩

theorem runAction_notAdvanced (E : Engine Mat4 Camera X V) (a : Action)
    (ha : a ≠ Action.stepAnimation) (σ : Sim Vec3 Mat4 Camera Text X V) :
    NotAdvanced σ.world (runAction E a σ).world := by
  cases a with
  | stepAnimation => exact absurd rfl ha
  | toggleAnimation => exact notAdvanced_refl σ.world
  | addCube => exact addShape_notAdvanced E ShapeKind.cube σ
  | addSphere => exact addShape_notAdvanced E ShapeKind.sphere σ
  | fire => exact fire_notAdvanced E σ
  | resetSim => exact resetSim_notAdvanced σ
  | toggleRandomPlace => exact notAdvanced_refl σ.world
  | toggleBBox => exact notAdvanced_refl σ.world
  | toggleWireframe => exact notAdvanced_refl σ.world

theorem paintGL_paused (E : Engine Mat4 Camera X V) (σ : Sim Vec3 Mat4 Camera Text X V)
    (h : σ.scene.m_animate = false) : (paintGL E σ).1.world = σ.world := by
  simp [paintGL, h]

theorem mouseMoveEvent_world (E : Engine Mat4 Camera X V) (x y : Int)
    (σ : Sim Vec3 Mat4 Camera Text X V) : (mouseMoveEvent E x y σ).world = σ.world := by
  unfold mouseMoveEvent
  split
  · rfl
  · split <;> rfl

theorem mouseReleaseEvent_world (B : Bindings) (button : Int)
    (σ : Sim Vec3 Mat4 Camera Text X V) : (mouseReleaseEvent B button σ).world = σ.world := by
  unfold mouseReleaseEvent
  split <;> rfl

theorem quiet_call_notAdvanced (E : Engine Mat4 Camera X V) (B : Bindings)
    (σ : Sim Vec3 Mat4 Camera Text X V) (h : σ.scene.m_animate = false)
    (c : SceneCall) (hc : requestsStep B c = false) :
    NotAdvanced σ.world (runCall E B c σ).world := by
  cases c with
  | stepAnimation => simp [requestsStep] at hc
  | paintGL =>
    show NotAdvanced σ.world (paintGL E σ).1.world
    rw [paintGL_paused E σ h]
    exact notAdvanced_refl σ.world
  | resizeGL w h => exact notAdvanced_refl σ.world
  | toggleAnimation => exact notAdvanced_refl σ.world
  | addCube => exact addShape_notAdvanced E ShapeKind.cube σ
  | addSphere => exact addShape_notAdvanced E ShapeKind.sphere σ
  | fire => exact fire_notAdvanced E σ
  | resetSim => exact resetSim_notAdvanced σ
  | toggleRandomPlace => exact notAdvanced_refl σ.world
  | toggleBBox => exact notAdvanced_refl σ.world
  | toggleWireframe => exact notAdvanced_refl σ.world
  | getPhysicsWorld => exact notAdvanced_refl σ.world
  | keyPressEvent key =>
    simp only [requestsStep, decide_eq_false_iff_not] at hc
    show NotAdvanced σ.world (keyPressEvent E B key σ).world
    unfold keyPressEvent
    cases hk : B.key key with
    | none => exact notAdvanced_refl σ.world
    | some a =>
      have ha : a ≠ Action.stepAnimation := by
        intro e
        exact hc (by rw [hk, e])
      exact runAction_notAdvanced E a ha σ
  | mouseMoveEvent x y =>
    show NotAdvanced σ.world (mouseMoveEvent E x y σ).world
    rw [mouseMoveEvent_world]
    exact notAdvanced_refl σ.world
  | mousePressEvent button x y =>
    simp only [requestsStep, decide_eq_false_iff_not] at hc
    show NotAdvanced σ.world (mousePressEvent E B button x y σ).world
    unfold mousePressEvent
    cases hk : B.button button with
    | none => exact notAdvanced_refl σ.world
    | some r =>
      cases r with
      | orbit => exact notAdvanced_refl σ.world
      | pan => exact notAdvanced_refl σ.world
      | action a =>
        have ha : a ≠ Action.stepAnimation := by
          intro e
          exact hc (by rw [hk, e])
        exact runAction_notAdvanced E a ha σ
  | mouseReleaseEvent button =>
    show NotAdvanced σ.world (mouseReleaseEvent B button σ).world
    rw [mouseReleaseEvent_world]
    exact notAdvanced_refl σ.world
  | wheelEvent delta => exact notAdvanced_refl σ.world
  | timerEvent => exact notAdvanced_refl σ.world

theorem step_call_steps (E : Engine Mat4 Camera X V) (B : Bindings)
    (σ : Sim Vec3 Mat4 Camera Text X V) (c : SceneCall) (hc : requestsStep B c = true) :
    (runCall E B c σ).world = step E σ.world := by
  cases c with
  | stepAnimation => rfl
  | keyPressEvent key =>
    simp only [requestsStep, decide_eq_true_eq] at hc
    show (keyPressEvent E B key σ).world = step E σ.world
    unfold keyPressEvent
    rw [hc]
    rfl
  | mousePressEvent button x y =>
    simp only [requestsStep, decide_eq_true_eq] at hc
    show (mousePressEvent E B button x y σ).world = step E σ.world
    unfold mousePressEvent
    rw [hc]
    rfl
  | _ => simp [requestsStep] at hc

end HelperLemmas

/-! ## The toggles and the accessor (from the header) -/

section SourceProofs

variable {Vec3 Mat4 Camera Text : Type}

/-- C1. Each of the four toggle operations flips its own boolean: after the
call the flag equals the negation of its value before the call. -/
theorem toggle_flips_own_flag (s : NGLScene Vec3 Mat4 Camera Text) :
    (toggleAnimation s).m_animate = !s.m_animate ∧
    (toggleRandomPlace s).m_randomPlace = !s.m_randomPlace ∧
    (toggleBBox s).m_bboxDraw = !s.m_bboxDraw ∧
    (toggleWireframe s).m_wireframe = !s.m_wireframe := by
  simp [toggleAnimation, toggleRandomPlace, toggleBBox, toggleWireframe, xorAssign_true]

/-- C2. Each toggle leaves every field other than its own flag unchanged:
writing the old value of the flag back into the toggled scene gives the scene
before the call, so all remaining members (the other three flags, the physics
pointer, the camera, both matrices, the model position, the mouse and spin
values, the drag flags, the window size, the fire position and radius, the
block count, and the rest) carry their old values. -/
theorem toggle_frame (s : NGLScene Vec3 Mat4 Camera Text) :
    { toggleAnimation s with m_animate := s.m_animate } = s ∧
    { toggleRandomPlace s with m_randomPlace := s.m_randomPlace } = s ∧
    { toggleBBox s with m_bboxDraw := s.m_bboxDraw } = s ∧
    { toggleWireframe s with m_wireframe := s.m_wireframe } = s :=
  ⟨rfl, rfl, rfl, rfl⟩

/-- C3. The accessor getPhysicsWorld returns the pointer stored in m_physics
and leaves the scene unchanged; a second call on the resulting scene returns
the same pointer. -/
theorem getPhysicsWorld_spec (s : NGLScene Vec3 Mat4 Camera Text) :
    (getPhysicsWorld s).1 = s.m_physics ∧
    (getPhysicsWorld s).2 = s ∧
    (getPhysicsWorld (getPhysicsWorld s).2).1 = (getPhysicsWorld s).1 :=
  ⟨rfl, rfl, rfl⟩

/-- C7. Each toggle is an involution on the whole scene state: applying the
same toggle twice returns the scene it started from. -/
theorem toggle_involution (s : NGLScene Vec3 Mat4 Camera Text) :
    toggleAnimation (toggleAnimation s) = s ∧
    toggleRandomPlace (toggleRandomPlace s) = s ∧
    toggleBBox (toggleBBox s) = s ∧
    toggleWireframe (toggleWireframe s) = s :=
  ⟨toggleAnimation_twice s, toggleRandomPlace_twice s, toggleBBox_twice s,
    toggleWireframe_twice s⟩

/-- C8. The four toggles commute pairwise: for any two of them, either order
of application yields the same scene. -/
theorem toggle_commute (s : NGLScene Vec3 Mat4 Camera Text)
    (f g : NGLScene Vec3 Mat4 Camera Text → NGLScene Vec3 Mat4 Camera Text)
    (hf : f ∈ [toggleAnimation, toggleRandomPlace, toggleBBox, toggleWireframe])
    (hg : g ∈ [toggleAnimation, toggleRandomPlace, toggleBBox, toggleWireframe]) :
    f (g s) = g (f s) := by
  simp only [List.mem_cons, List.mem_singleton, List.not_mem_nil, or_false] at hf hg
  rcases hf with rfl | rfl | rfl | rfl <;> rcases hg with rfl | rfl | rfl | rfl <;> rfl

/-- C9. Parity of repeated toggling: after n successive calls of a toggle its
flag has its starting value when n is even and the negated value when n is
odd, for each of the four toggles. -/
theorem toggle_parity (s : NGLScene Vec3 Mat4 Camera Text) (n : Nat) :
    (toggleAnimation^[n] s).m_animate
      = (if n % 2 = 0 then s.m_animate else !s.m_animate) ∧
    (toggleRandomPlace^[n] s).m_randomPlace
      = (if n % 2 = 0 then s.m_randomPlace else !s.m_randomPlace) ∧
    (toggleBBox^[n] s).m_bboxDraw
      = (if n % 2 = 0 then s.m_bboxDraw else !s.m_bboxDraw) ∧
    (toggleWireframe^[n] s).m_wireframe
      = (if n % 2 = 0 then s.m_wireframe else !s.m_wireframe) := by
  rw [iterate_of_involution toggleAnimation toggleAnimation_twice,
    iterate_of_involution toggleRandomPlace toggleRandomPlace_twice,
    iterate_of_involution toggleBBox toggleBBox_twice,
    iterate_of_involution toggleWireframe toggleWireframe_twice]
  by_cases h : n % 2 = 0 <;>
    simp [h, toggleAnimation, toggleRandomPlace, toggleBBox, toggleWireframe, xorAssign_true]

end SourceProofs

/-- Witness for C8 on the concrete scene: toggleAnimation and toggleBBox are
both among the four toggles, and applying them in either order agrees. -/
theorem toggle_commute_witness :
    (toggleAnimation ∈ ([toggleAnimation, toggleRandomPlace, toggleBBox, toggleWireframe] :
        List (NGLScene Unit Unit Unit Unit → NGLScene Unit Unit Unit Unit))) ∧
    (toggleBBox ∈ ([toggleAnimation, toggleRandomPlace, toggleBBox, toggleWireframe] :
        List (NGLScene Unit Unit Unit Unit → NGLScene Unit Unit Unit Unit))) ∧
    toggleAnimation (toggleBBox sampleScene) = toggleBBox (toggleAnimation sampleScene) :=
  ⟨List.mem_cons_self _ _,
    List.mem_cons_of_mem _ (List.mem_cons_of_mem _ (List.mem_cons_self _ _)),
    toggle_commute sampleScene toggleAnimation toggleBBox
      (List.mem_cons_self _ _)
      (List.mem_cons_of_mem _ (List.mem_cons_of_mem _ (List.mem_cons_self _ _)))⟩

/-! ## Stepping policy, body lifecycle and initial state (modelled from the specification) -/

section SpecProofs

variable {Vec3 Mat4 Camera Text X V : Type}

/-- C4. Stepping policy. With the animate flag false, the render callback
paintGL leaves the Physics World as it was, and every request that is not an
explicit single step (paintGL, resizeGL, the toggles, addCube, addSphere,
fire, resetSim, getPhysicsWorld, key, mouse and wheel events, timerEvent)
leaves the number of advances unchanged and leaves every body that existed
before the call with the transform and velocity it had. A request for a single
step (stepAnimation, or a key or button bound to it) advances the world by
exactly one step whatever the flag. With the animate flag true, the render
callback advances the world by exactly one step. -/
theorem stepping_policy (E : Engine Mat4 Camera X V) (B : Bindings)
    (σ : Sim Vec3 Mat4 Camera Text X V) :
    (σ.scene.m_animate = false → (paintGL E σ).1.world = σ.world) ∧
    (σ.scene.m_animate = false →
      ∀ c : SceneCall, requestsStep B c = false →
        (runCall E B c σ).world.ticks = σ.world.ticks ∧
        ∀ b ∈ (runCall E B c σ).world.bodies, b.id < σ.world.nextId → b ∈ σ.world.bodies) ∧
    (∀ c : SceneCall, requestsStep B c = true →
      (runCall E B c σ).world = step E σ.world) ∧
    ((stepAnimation E σ).world = step E σ.world ∧
      (stepAnimation E σ).world.ticks = σ.world.ticks + 1) ∧
    (σ.scene.m_animate = true →
      (paintGL E σ).1.world = step E σ.world ∧
      (paintGL E σ).1.world.ticks = σ.world.ticks + 1) := by
  refine ⟨paintGL_paused E σ, ?_, step_call_steps E B σ, ⟨rfl, rfl⟩, ?_⟩
  · intro h c hc
    exact quiet_call_notAdvanced E B σ h c hc
  · intro h
    simp [paintGL, h, step_ticks]

/-- C5. Add/remove symmetry: after any finite sequence of addCube and
addSphere requests followed by resetSim, the Physics World holds no live body
and the render-record collection is empty. -/
theorem reset_after_adds (E : Engine Mat4 Camera X V) (calls : List AddCall)
    (σ : Sim Vec3 Mat4 Camera Text X V) :
    (resetSim (calls.foldl (fun acc c => runAdd E c acc) σ)).world.bodies.length = 0 ∧
    (resetSim (calls.foldl (fun acc c => runAdd E c acc) σ)).records.length = 0 :=
  ⟨rfl, rfl⟩

/-- C6. Initial state: the scene produced by construction and initialisation
has the animate flag true, the random-placement flag false, and the
bounding-box and wireframe flags false. -/
theorem initial_flags (base : NGLScene Vec3 Mat4 Camera Text) (defaultCam : Camera)
    (physics : Ptr) (ceiling : Option Nat) (seed : Nat) :
    (initializeGL base defaultCam physics ceiling seed :
        Sim Vec3 Mat4 Camera Text X V).scene.m_animate = true ∧
    (initializeGL base defaultCam physics ceiling seed :
        Sim Vec3 Mat4 Camera Text X V).scene.m_randomPlace = false ∧
    (initializeGL base defaultCam physics ceiling seed :
        Sim Vec3 Mat4 Camera Text X V).scene.m_bboxDraw = false ∧
    (initializeGL base defaultCam physics ceiling seed :
        Sim Vec3 Mat4 Camera Text X V).scene.m_wireframe = false :=
  ⟨rfl, rfl, rfl, rfl⟩

end SpecProofs

/-- Witness for C4 on the concrete simulations. The paused one satisfies the
animate-false hypothesis: its frame keeps the world, and every request that is
not a single step keeps the tick count and the existing bodies. Key 83 is
bound to the single step and advances the paused world by one step. The
running one satisfies the animate-true hypothesis and its frame advances the
world once. -/
theorem stepping_policy_witness :
    pausedSim.scene.m_animate = false ∧
    (paintGL sampleEngine pausedSim).1.world = pausedSim.world ∧
    (∀ c : SceneCall, requestsStep sampleBindings c = false →
      (runCall sampleEngine sampleBindings c pausedSim).world.ticks = pausedSim.world.ticks ∧
      ∀ b ∈ (runCall sampleEngine sampleBindings c pausedSim).world.bodies,
        b.id < pausedSim.world.nextId → b ∈ pausedSim.world.bodies) ∧
    requestsStep sampleBindings (SceneCall.keyPressEvent 83) = true ∧
    (runCall sampleEngine sampleBindings (SceneCall.keyPressEvent 83) pausedSim).world
      = step sampleEngine pausedSim.world ∧
    runningSim.scene.m_animate = true ∧
    (paintGL sampleEngine runningSim).1.world.ticks = runningSim.world.ticks + 1 :=
  ⟨by decide,
    (stepping_policy sampleEngine sampleBindings pausedSim).1 (by decide),
    (stepping_policy sampleEngine sampleBindings pausedSim).2.1 (by decide),
    by decide,
    (stepping_policy sampleEngine sampleBindings pausedSim).2.2.1
      (SceneCall.keyPressEvent 83) (by decide),
    by decide,
    ((stepping_policy sampleEngine sampleBindings runningSim).2.2.2.2 (by decide)).2⟩

/-- The adds are not vacuous: on the running simulation, a cube and a sphere
added after the existing cube give three live bodies and three render records
before the reset, and none after it. -/
theorem adds_then_reset_example :
    ((AddCall.addCube :: AddCall.addSphere :: []).foldl
        (fun acc c => runAdd sampleEngine c acc) runningSim).world.bodies.length = 3 ∧
    ((AddCall.addCube :: AddCall.addSphere :: []).foldl
        (fun acc c => runAdd sampleEngine c acc) runningSim).records.length = 3 ∧
    (resetSim ((AddCall.addCube :: AddCall.addSphere :: []).foldl
        (fun acc c => runAdd sampleEngine c acc) runningSim)).world.bodies.length = 0 := by
  decide

/-- The stepping model is not vacuous: a paused frame keeps the tick count at
5, a single step or a running frame moves it to 6, and the cube falls from
height 10 to height 9. -/
theorem stepping_example :
    (paintGL sampleEngine pausedSim).1.world.ticks = 5 ∧
    (stepAnimation sampleEngine pausedSim).world.ticks = 6 ∧
    (paintGL sampleEngine runningSim).1.world.ticks = 6 ∧
    getTransform (paintGL sampleEngine runningSim).1.world 0 = some 9 := by
  decide

/-- The paused requests on the concrete simulation: the timer, a frame, a
wheel event and the add-cube key leave the cube at height 10 and the tick
count at 5; firing adds a second body and leaves the cube where it was; the
single-step key moves the cube to height 9 and the tick count to 6. -/
theorem paused_requests_example :
    getTransform (runCall sampleEngine sampleBindings SceneCall.timerEvent pausedSim).world 0
      = some 10 ∧
    getTransform (runCall sampleEngine sampleBindings SceneCall.paintGL pausedSim).world 0
      = some 10 ∧
    getTransform (runCall sampleEngine sampleBindings (SceneCall.wheelEvent 3) pausedSim).world 0
      = some 10 ∧
    getTransform (runCall sampleEngine sampleBindings (SceneCall.keyPressEvent 49) pausedSim).world 0
      = some 10 ∧
    (runCall sampleEngine sampleBindings SceneCall.fire pausedSim).world.bodies.length = 2 ∧
    getTransform (runCall sampleEngine sampleBindings SceneCall.fire pausedSim).world 0
      = some 10 ∧
    (runCall sampleEngine sampleBindings SceneCall.fire pausedSim).world.ticks = 5 ∧
    getTransform (runCall sampleEngine sampleBindings (SceneCall.keyPressEvent 83) pausedSim).world 0
      = some 9 ∧
    (runCall sampleEngine sampleBindings (SceneCall.keyPressEvent 83) pausedSim).world.ticks = 6 := by
  decide

end Specialist
